import Mathlib

/-!
Verification development for `qiskit_metal/_gui/widgets/edit_component/component_widget.py`.

The module is a Qt widget (`ComponentWidget`) binding a selected design component to
three dependent views (parameter table, help pane, source pane).  We give a shallow
embedding: the widget's mutable fields become a `WidgetState` record, each Qt / model /
logging side effect is recorded as an `Event` appended to a trace inside the state, and
a Python exception escaping a method is returned as `Option PyExn` next to the state
(the state returned alongside `some e` is the state at the moment the exception was
raised, since Python leaves partial mutations in place).

External collaborators (the design registry, the filesystem, the pygments library) are
an `Env` record.  File reads are modelled as a total function, matching the spec which
leaves read failure unspecified.
-/

/-- The class-level metadata of a component, as obtained by Python introspection:
`__name__`, `__module__`, `inspect.getfile` on the class, `inspect.getdoc` on the
instance (which yields the class docstring) and on `__init__`. -/
structure QClass where
  name : String
  module : String
  file : String
  doc : Option String
  initDoc : Option String
  deriving DecidableEq, Repr

/-- A design component: its `name` attribute and its class metadata. -/
structure Component where
  name : String
  cls : QClass
  deriving DecidableEq, Repr

/-- The design: owns the registry `components`, a mapping from name to component
(`design.components`, a dict keyed by string). -/
structure QDesign where
  components : List (String × Component)
  deriving DecidableEq, Repr

/-- External world: the host design (possibly absent, `self.gui.design`), the
filesystem (`Path(filepath).read_text()` modelled as total), and the pygments
capability: whether the import succeeded, the `highlight` function composed with the
HTML formatter, and `formatter.get_style_defs` output. -/
structure Env where
  design : Option QDesign
  readFile : String → String
  highlightAvailable : Bool
  pygmentsHighlight : String → String
  pygmentsStyleDefs : String

/-- One observable side effect performed by the widget. -/
inductive Event where
  | setName (n : Option String)
  | setWindowTitle (t : String)
  | setParentWindowTitle (t : String)
  | setSourcePath (p : String)
  | setSrcHtml (t : String)
  | setSrcPlain (t : String)
  | setHelpHtml (t : String)
  | modelRefresh
  | autoresizeColumns
  | warnDialog (title msg : String)
  | logInfo (m : String)
  | logError (m : String)
  | createEditWidget (class_name module_name module_path : String)
  deriving DecidableEq, Repr

/-- Content of the source-pane text document (`self.src_doc`). -/
inductive SrcContent where
  | empty
  | plain (text : String)
  | html (text : String)
  deriving DecidableEq, Repr

/-- The auxiliary editor window built by the external factory
`create_source_edit_widget(gui, class_name, module_name, module_path, parent)`;
modelled by the arguments the widget passes to it. -/
structure SourceEditWidget where
  class_name : String
  module_name : String
  module_path : String
  deriving DecidableEq, Repr

/-- A Python exception escaping a method of the widget.  The messages are abridged
(the CPython texts contain quote characters). -/
inductive PyExn where
  | attributeError (msg : String)
  | typeError (msg : String)
  deriving DecidableEq, Repr

/-- Message of the `AttributeError` raised by `component.name` when `component` is
`None` (CPython: NoneType object has no attribute name). -/
def attrErrorNoneName : String := "NoneType object has no attribute name"

/-- Message of the `TypeError` raised by `inspect.getfile(type(None))`
(CPython: NoneType is a built-in class). -/
def typeErrorGetfileNone : String := "NoneType is a built-in class"

/-- The mutable state of a `ComponentWidget`, plus the trace of side effects performed
so far.  `component_name` is `self.component_name`; `windowTitle` / `parentWindowTitle`
are the titles set by `setWindowTitle` on the widget and its parent; `helpHtml` is the
content of `self.ui.textHelp`; `helpStyleSheet` its default stylesheet; `srcContent`,
`html_css_lex` and `srcDefaultStyleSheet` belong to `self.src_doc`; `lineSourcePath` is
`self.ui.lineSourcePath`; `src_widgets` is `self.src_widgets`. -/
structure WidgetState where
  component_name : Option String
  windowTitle : String
  parentWindowTitle : String
  helpHtml : String
  helpStyleSheet : String
  srcContent : SrcContent
  html_css_lex : Option String
  srcDefaultStyleSheet : Option String
  lineSourcePath : String
  src_widgets : List SourceEditWidget
  trace : List Event
  deriving DecidableEq, Repr

/-- `dict.get(key, None)` on the registry; a key of `None` is absent from a
string-keyed dict, so it yields `None`. -/
def dictGet (m : List (String × Component)) : Option String → Option Component
  | none => none
  | some k => m.lookup k

/-- Resolution of an optional name against the environment:
`self.design.components.get(name, None)` guarded by `if self.design:` (which returns
`None` when the design is absent). -/
def resolveName (env : Env) (name : Option String) : Option Component :=
  match env.design with
  | some d => dictGet d.components name
  | none => none

/-- The `component` property: resolves `self.component_name` fresh on every access. -/
def ComponentWidget.component (env : Env) (s : WidgetState) : Option Component :=
  resolveName env s.component_name

/-- `inspect.getdoc(component)`: the class docstring (getdoc on an instance falls back
to its type). -/
def getdoc (c : Component) : Option String := c.cls.doc

/-- `inspect.getdoc(component.__init__)`: the init docstring. -/
def getdocInit (c : Component) : Option String := c.cls.initDoc

/-- `inspect.getfile` applied to `component.__class__` where `component` is the result
of the `component` property: on `None` the class is `NoneType` and getfile raises a
`TypeError`; on a real component it returns the defining file. -/
def getfileOfClass : Option Component → Except PyExn String
  | none => .error (.typeError typeErrorGetfileNone)
  | some c => .ok c.cls.file

/-- Python `str.strip()` on a char list, from the left. -/
def pyStripLeft : List Char → List Char
  | [] => []
  | c :: cs => if c.isWhitespace then pyStripLeft cs else c :: cs

/-- Python `doc.strip()`: remove leading and trailing whitespace. -/
def pyStrip (s : String) : String :=
  ⟨(pyStripLeft (pyStripLeft s.data).reverse).reverse⟩

/-- `format_docstr(doc)`: empty string on `None`, otherwise the stripped docstring
wrapped in a preformatted monospace HTML block, reproducing the f-string of the
source (a leading newline, the pre/code block, a trailing newline and four spaces). -/
def format_docstr : Option String → String
  | none => ""
  | some doc =>
    let doc := pyStrip doc
    "\n<pre style=\"background-color: #EBECE4;\">\n<code class=\"DocString\">" ++ doc
      ++ "</code>\n</pre>\n    "

/-- The module-level CSS stylesheet `textHelp_css_style` (braces written as hex
escapes). -/
def textHelp_css_style : String :=
  "\nbody \x7b\n  background-color: #f7f7f7;\n  color: #000000;\n  text-color : #000000;\n\x7d\n\n.ComponentHeader th \x7b\n    text-align: left;\n    background-color: #EEEEEE;\n    padding-right: 10px;\n\x7d\n\n.ComponentHeader td \x7b\n    text-align: left;\n    padding-left: 5px;\n    color: brown;\n\x7d\n\n.ComponentHeader \x7b\n    font-size: 1.5em;\n    text-align: left;\n    margin-top: 5px;\n    margin-bottom: 5px;\n    padding-right: 40px;\n\x7d\n\n.h1 \x7b\n  display: block;\n  font-size: large;\n  margin-top: 0.67em;\n  margin-bottom: 0.67em;\n  margin-left: 0;\n  margin-right: 0;\n  font-weight: bold;\n\x7d\n\n/*.DocString \x7b\n    font-family: monospace;\n\x7d*/\n"

/-- The summary block of the help HTML: the first f-string of `_set_help`, with the
component name, class name, module name and file path interpolated. -/
def helpSummaryText (c : Component) (filepath : String) : String :=
  "\n        <div class=\"h1\">Summary:</div>\n        <table class=\"table ComponentHeader\">\n            <tbody>\n                <tr> <th>Name</th> <td>"
    ++ c.name
    ++ "</td></tr>\n                <tr> <th>Class</th><td>"
    ++ c.cls.name
    ++ "</td></tr>\n                <tr> <th>Module</th><td>"
    ++ c.cls.module
    ++ "</td></tr>\n                <tr> <th>Path </th> <td style=\"text-color=#BBBBBB;\"> "
    ++ filepath
    ++ "</td></tr>\n            </tbody>\n        </table>\n        "

/-- The docstring block of the help HTML: the second f-string of `_set_help`. -/
def helpDocText (doc_class doc_init : String) : String :=
  "\n            <div class=\"h1\">Class docstring:</div>\n            "
    ++ doc_class
    ++ "\n            <div class=\"h1\">Init docstring:</div>\n            "
    ++ doc_init
    ++ "\n        "

/-- The full help HTML assembled by `_set_help`. -/
def helpBodyText (c : Component) (filepath : String) (doc_class doc_init : String) :
    String :=
  "<body>" ++ helpSummaryText c filepath ++ helpDocText doc_class doc_init ++ "</body>"

/-- The window-title label `f"{component.name}   :   {class}   :   {module}"`. -/
def labelText (c : Component) : String :=
  c.name ++ "   :   " ++ c.cls.name ++ "   :   " ++ c.cls.module

/-- The module-level `try: import pygments ... except ImportError: logger.error(...)`:
when the import fails the fallback is logged exactly once, at startup. -/
def pygmentsImportEvents (highlightAvailable : Bool) : List Event :=
  if highlightAvailable then []
  else [.logError "Error: Could not load python package pygments"]

/-- The widget state after `__init__`: no selected name, empty documents, the help
document's default stylesheet set to `textHelp_css_style`, no editor widgets, and no
`refresh()` beyond the initial model binding. -/
def initWidgetState : WidgetState where
  component_name := none
  windowTitle := ""
  parentWindowTitle := ""
  helpHtml := ""
  helpStyleSheet := textHelp_css_style
  srcContent := .empty
  html_css_lex := none
  srcDefaultStyleSheet := none
  lineSourcePath := ""
  src_widgets := []
  trace := []

/-- `force_refresh`: `self.model.refresh()`. -/
def ComponentWidget.force_refresh (s : WidgetState) : WidgetState :=
  { s with trace := s.trace ++ [.modelRefresh] }

/-- `self.ui.tableView.autoresize_columns()`. -/
def tableView_autoresize_columns (s : WidgetState) : WidgetState :=
  { s with trace := s.trace ++ [.autoresizeColumns] }

/-- `_set_help`: resolves the component; if `None`, returns with no update; otherwise
builds the help HTML from the file path and the two formatted docstrings and sets it
on the help pane.  Never raises (getfile succeeds on a real class). -/
def ComponentWidget._set_help (env : Env) (s : WidgetState) : WidgetState :=
  match ComponentWidget.component env s with
  | none => s
  | some component =>
    let filepath := component.cls.file
    let doc_class := format_docstr (getdoc component)
    let doc_init := format_docstr (getdocInit component)
    let text := helpBodyText component filepath doc_class doc_init
    { s with helpHtml := text, trace := s.trace ++ [.setHelpHtml text] }

/-- `_set_source`: resolves the file of the component's class (raising a `TypeError`
when the component is `None` — there is no try/except here, so the exception
propagates with the state unchanged); writes the path into the path field; reads the
file; then either highlights with pygments (setting the formatter stylesheet and the
HTML) or, when pygments is unavailable, sets the raw text as plain text with no
logging. -/
def ComponentWidget._set_source (env : Env) (s : WidgetState) :
    WidgetState × Option PyExn :=
  match getfileOfClass (ComponentWidget.component env s) with
  | .error e => (s, some e)
  | .ok filepath =>
    let s := { s with lineSourcePath := filepath,
                      trace := s.trace ++ [Event.setSourcePath filepath] }
    let text := env.readFile filepath
    if env.highlightAvailable then
      let css := env.pygmentsStyleDefs
      let text_html := env.pygmentsHighlight text
      ({ s with html_css_lex := some css,
                srcDefaultStyleSheet := some css,
                srcContent := .html text_html,
                trace := s.trace ++ [Event.setSrcHtml text_html] }, none)
    else
      ({ s with srcContent := .plain text,
                trace := s.trace ++ [Event.setSrcPlain text] }, none)

/-- `set_component(name)`: assigns `self.component_name := name` first; on `None` just
`force_refresh`es and returns; otherwise resolves the component (an absent name
resolves to `None`, and the f-string `component.name` then raises an
`AttributeError` before any title or view update), sets both window titles to the
label, then `_set_source`, `_set_help`, `force_refresh`, and auto-resizes the table
columns. -/
def ComponentWidget.set_component (env : Env) (s : WidgetState)
    (name : Option String) : WidgetState × Option PyExn :=
  let s := { s with component_name := name, trace := s.trace ++ [.setName name] }
  match name with
  | none => (ComponentWidget.force_refresh s, none)
  | some _ =>
    match ComponentWidget.component env s with
    | none => (s, some (.attributeError attrErrorNoneName))
    | some component =>
      let label_text := labelText component
      let s := { s with windowTitle := label_text,
                        parentWindowTitle := label_text,
                        trace := s.trace ++ [.setWindowTitle label_text,
                                             .setParentWindowTitle label_text] }
      match ComponentWidget._set_source env s with
      | (s, some e) => (s, some e)
      | (s, none) =>
        let s := ComponentWidget._set_help env s
        let s := ComponentWidget.force_refresh s
        (tableView_autoresize_columns s, none)

/-- The external factory `create_source_edit_widget`, modelled by the arguments the
widget passes to it. -/
def create_source_edit_widget (class_name module_name module_path : String) :
    SourceEditWidget :=
  { class_name := class_name, module_name := module_name, module_path := module_path }

/-- The info message logged after creating the editor window. -/
def editSourceInfoMsg : String :=
  "Edit sources window created. Please find on your screen."

/-- The body of the warning dialog shown when no component is selected (the typo
desing is in the source). -/
def editSourceWarnMsg : String :=
  "Please first select a component to edit, by clicking one in the desing components menu."

/-- `edit_source`: with a component selected, constructs one editor widget via the
external factory, appends it to `self.src_widgets`, and logs an info message;
otherwise shows one blocking warning dialog. -/
def ComponentWidget.edit_source (env : Env) (s : WidgetState) : WidgetState :=
  match ComponentWidget.component env s with
  | some component =>
    let class_name := component.cls.name
    let module_name := component.cls.module
    let module_path := component.cls.file
    let w := create_source_edit_widget class_name module_name module_path
    { s with src_widgets := s.src_widgets ++ [w],
             trace := s.trace ++ [.createEditWidget class_name module_name module_path,
                                  .logInfo editSourceInfoMsg] }
  | none =>
    { s with trace := s.trace ++ [.warnDialog "Missing Selected Component"
                                              editSourceWarnMsg] }

/-- `pat` occurs in `s` as a contiguous substring. -/
def containsSubstr (s pat : String) : Prop := pat.data <:+: s.data

/-- Whether an event is a logging event (info or error). -/
def Event.isLog : Event → Bool
  | .logInfo _ => true
  | .logError _ => true
  | _ => false

/-- Whether an event is a parameter-table model refresh. -/
def Event.isRefresh : Event → Bool
  | .modelRefresh => true
  | _ => false

/-- A concrete environment whose design registry is empty. -/
def envEmpty : Env where
  design := some { components := [] }
  readFile := fun _ => ""
  highlightAvailable := false
  pygmentsHighlight := fun t => t
  pygmentsStyleDefs := ""

/-- A concrete component class used for witnesses. -/
def sampleClass : QClass where
  name := "TransmonPocket"
  module := "qiskit_metal.components.qubits.transmon_pocket"
  file := "/site-packages/qiskit_metal/components/qubits/transmon_pocket.py"
  doc := some "Make a transmon pocket."
  initDoc := none

/-- A concrete component used for witnesses. -/
def sampleComponent : Component where
  name := "Q1"
  cls := sampleClass

/-- A concrete environment whose registry holds `sampleComponent` under the name
Q1, with pygments unavailable. -/
def envSample : Env where
  design := some { components := [("Q1", sampleComponent)] }
  readFile := fun _ => "class TransmonPocket(BaseQubit):\n    pass\n"
  highlightAvailable := false
  pygmentsHighlight := fun t => t
  pygmentsStyleDefs := ""

/-- `envSample` with pygments available. -/
def envSampleHl : Env :=
  { envSample with highlightAvailable := true,
                   pygmentsHighlight := fun t => "<div class=\"highlight\">" ++ t ++ "</div>",
                   pygmentsStyleDefs := ".highlight .k" }

/-- Path lemma: `set_component(None)` stores `None` and runs only `force_refresh`. -/
theorem set_component_none_eq (env : Env) (s : WidgetState) :
    ComponentWidget.set_component env s none =
      ({ s with component_name := none,
                trace := s.trace ++ [Event.setName none, Event.modelRefresh] },
        none) := by
  simp [ComponentWidget.set_component, ComponentWidget.force_refresh]

/-- Path lemma: `set_component(name)` on a name that does not resolve stores the name
and then raises; no other field or view is touched. -/
theorem set_component_miss_eq (env : Env) (s : WidgetState) (n : String)
    (h : resolveName env (some n) = none) :
    ComponentWidget.set_component env s (some n) =
      ({ s with component_name := some n,
                trace := s.trace ++ [Event.setName (some n)] },
        some (PyExn.attributeError attrErrorNoneName)) := by
  simp [ComponentWidget.set_component, ComponentWidget.component, h]

/-- Path lemma: `set_component(name)` on a resolving name, pygments unavailable. -/
theorem set_component_hit_plain_eq (env : Env) (s : WidgetState) (n : String)
    (c : Component) (hres : resolveName env (some n) = some c)
    (hhl : env.highlightAvailable = false) :
    ComponentWidget.set_component env s (some n) =
      ({ s with component_name := some n,
                windowTitle := labelText c,
                parentWindowTitle := labelText c,
                lineSourcePath := c.cls.file,
                srcContent := SrcContent.plain (env.readFile c.cls.file),
                helpHtml := helpBodyText c c.cls.file (format_docstr (getdoc c))
                  (format_docstr (getdocInit c)),
                trace := s.trace ++ [Event.setName (some n),
                  Event.setWindowTitle (labelText c),
                  Event.setParentWindowTitle (labelText c),
                  Event.setSourcePath c.cls.file,
                  Event.setSrcPlain (env.readFile c.cls.file),
                  Event.setHelpHtml (helpBodyText c c.cls.file
                    (format_docstr (getdoc c)) (format_docstr (getdocInit c))),
                  Event.modelRefresh,
                  Event.autoresizeColumns] },
        none) := by
  simp [ComponentWidget.set_component, ComponentWidget.component,
    ComponentWidget._set_source, ComponentWidget._set_help,
    ComponentWidget.force_refresh, tableView_autoresize_columns,
    getfileOfClass, hres, hhl]

/-- Path lemma: `set_component(name)` on a resolving name, pygments available. -/
theorem set_component_hit_html_eq (env : Env) (s : WidgetState) (n : String)
    (c : Component) (hres : resolveName env (some n) = some c)
    (hhl : env.highlightAvailable = true) :
    ComponentWidget.set_component env s (some n) =
      ({ s with component_name := some n,
                windowTitle := labelText c,
                parentWindowTitle := labelText c,
                lineSourcePath := c.cls.file,
                srcContent := SrcContent.html
                  (env.pygmentsHighlight (env.readFile c.cls.file)),
                html_css_lex := some env.pygmentsStyleDefs,
                srcDefaultStyleSheet := some env.pygmentsStyleDefs,
                helpHtml := helpBodyText c c.cls.file (format_docstr (getdoc c))
                  (format_docstr (getdocInit c)),
                trace := s.trace ++ [Event.setName (some n),
                  Event.setWindowTitle (labelText c),
                  Event.setParentWindowTitle (labelText c),
                  Event.setSourcePath c.cls.file,
                  Event.setSrcHtml (env.pygmentsHighlight (env.readFile c.cls.file)),
                  Event.setHelpHtml (helpBodyText c c.cls.file
                    (format_docstr (getdoc c)) (format_docstr (getdocInit c))),
                  Event.modelRefresh,
                  Event.autoresizeColumns] },
        none) := by
  simp [ComponentWidget.set_component, ComponentWidget.component,
    ComponentWidget._set_source, ComponentWidget._set_help,
    ComponentWidget.force_refresh, tableView_autoresize_columns,
    getfileOfClass, hres, hhl]

/-- The right part of a concatenation is a substring of it. -/
theorem containsSubstr_append_self_right (a b : String) : containsSubstr (a ++ b) b :=
  ⟨a.data, [], by simp [containsSubstr, String.data_append]⟩

/-- Substring containment is preserved by prepending. -/
theorem containsSubstr_append_left (a b pat : String)
    (h : containsSubstr b pat) : containsSubstr (a ++ b) pat := by
  obtain ⟨s, t, hst⟩ := h
  exact ⟨a.data ++ s, t, by simp [String.data_append, ← hst]⟩

/-- Substring containment is preserved by appending. -/
theorem containsSubstr_append_right (a b pat : String)
    (h : containsSubstr a pat) : containsSubstr (a ++ b) pat := by
  obtain ⟨s, t, hst⟩ := h
  exact ⟨s, t ++ b.data, by simp [String.data_append, ← hst]⟩

/-- The help summary block contains the component name. -/
theorem helpSummary_contains_name (c : Component) (f : String) :
    containsSubstr (helpSummaryText c f) c.name := by
  unfold helpSummaryText
  exact containsSubstr_append_right _ _ _ (containsSubstr_append_right _ _ _
    (containsSubstr_append_right _ _ _ (containsSubstr_append_right _ _ _
      (containsSubstr_append_right _ _ _ (containsSubstr_append_right _ _ _
        (containsSubstr_append_right _ _ _
          (containsSubstr_append_self_right _ _)))))))

/-- The help summary block contains the class name. -/
theorem helpSummary_contains_clsname (c : Component) (f : String) :
    containsSubstr (helpSummaryText c f) c.cls.name := by
  unfold helpSummaryText
  exact containsSubstr_append_right _ _ _ (containsSubstr_append_right _ _ _
    (containsSubstr_append_right _ _ _ (containsSubstr_append_right _ _ _
      (containsSubstr_append_right _ _ _
        (containsSubstr_append_self_right _ _)))))

/-- The help summary block contains the module name. -/
theorem helpSummary_contains_module (c : Component) (f : String) :
    containsSubstr (helpSummaryText c f) c.cls.module := by
  unfold helpSummaryText
  exact containsSubstr_append_right _ _ _ (containsSubstr_append_right _ _ _
    (containsSubstr_append_right _ _ _
      (containsSubstr_append_self_right _ _)))

/-- Anything contained in the summary block is contained in the full help body. -/
theorem helpBody_contains_of_summary (c : Component) (f dc di pat : String)
    (h : containsSubstr (helpSummaryText c f) pat) :
    containsSubstr (helpBodyText c f dc di) pat := by
  unfold helpBodyText
  exact containsSubstr_append_right _ _ _ (containsSubstr_append_right _ _ _
    (containsSubstr_append_left _ _ _ h))

/-- C1 counterexample: with an empty registry, `set_component("missing-name")` raises
an `AttributeError` (at the `component.name` access in the label f-string),
contradicting the claim that it does not raise. -/
theorem C1_counterexample :
    (ComponentWidget.set_component envEmpty initWidgetState (some "missing-name")).2 =
      some (PyExn.attributeError attrErrorNoneName) := by
  decide

/-- C1 (amended): for every name absent from the design registry, the resolved
component (the `component` property) is absent (`None`) and the help-pane renderer
treats this as the empty case (no update); but `set_component(name)` itself raises an
`AttributeError` while formatting the title label, instead of returning normally. -/
theorem C1_missing_resolves_absent_but_raises (env : Env) (s : WidgetState)
    (n : String) (habs : resolveName env (some n) = none) :
    ComponentWidget.component env
        (ComponentWidget.set_component env s (some n)).1 = none ∧
    (ComponentWidget.set_component env s (some n)).2 =
      some (PyExn.attributeError attrErrorNoneName) ∧
    ComponentWidget._set_help env (ComponentWidget.set_component env s (some n)).1 =
      (ComponentWidget.set_component env s (some n)).1 := by
  rw [set_component_miss_eq env s n habs]
  refine ⟨?_, rfl, ?_⟩
  · simpa [ComponentWidget.component] using habs
  · simp [ComponentWidget._set_help, ComponentWidget.component, habs]

/-- C1 witness: the amended statement at a concrete missing name. -/
theorem C1_witness :
    resolveName envEmpty (some "missing-name") = none ∧
    (ComponentWidget.component envEmpty
        (ComponentWidget.set_component envEmpty initWidgetState (some "missing-name")).1 = none ∧
      (ComponentWidget.set_component envEmpty initWidgetState (some "missing-name")).2 =
        some (PyExn.attributeError attrErrorNoneName) ∧
      ComponentWidget._set_help envEmpty
          (ComponentWidget.set_component envEmpty initWidgetState (some "missing-name")).1 =
        (ComponentWidget.set_component envEmpty initWidgetState (some "missing-name")).1) :=
  ⟨rfl, C1_missing_resolves_absent_but_raises envEmpty initWidgetState "missing-name" rfl⟩

/-- C2 counterexample: `set_component("")` with the empty string raises (the empty
string is not `None`, so the clear path is not taken and resolution fails),
contradicting the claim that the empty string does not raise and clears the
selection. -/
theorem C2_counterexample :
    (ComponentWidget.set_component envEmpty initWidgetState (some "")).2 =
      some (PyExn.attributeError attrErrorNoneName) ∧
    (ComponentWidget.set_component envEmpty initWidgetState (some "")).1.component_name =
      some "" := by
  exact ⟨rfl, rfl⟩

/-- C2 (amended): `set_component(None)` does not raise, clears the stored selection
and triggers exactly the no-component refresh cycle (a single model refresh); but an
empty string is not treated as the clear case: it is stored as the selection and,
when the empty string is absent from the registry, the call raises. -/
theorem C2_none_clears_but_empty_string_raises (env : Env) (s : WidgetState)
    (habs : resolveName env (some "") = none) :
    ((ComponentWidget.set_component env s none).2 = none ∧
      (ComponentWidget.set_component env s none).1.component_name = none ∧
      (ComponentWidget.set_component env s none).1.trace =
        s.trace ++ [Event.setName none, Event.modelRefresh]) ∧
    ((ComponentWidget.set_component env s (some "")).2 =
        some (PyExn.attributeError attrErrorNoneName) ∧
      (ComponentWidget.set_component env s (some "")).1.component_name = some "") := by
  rw [set_component_none_eq env s, set_component_miss_eq env s "" habs]
  exact ⟨⟨rfl, rfl, rfl⟩, rfl, rfl⟩

/-- C2 witness: the amended statement at the empty registry. -/
theorem C2_witness :
    resolveName envEmpty (some "") = none ∧
    (((ComponentWidget.set_component envEmpty initWidgetState none).2 = none ∧
      (ComponentWidget.set_component envEmpty initWidgetState none).1.component_name = none ∧
      (ComponentWidget.set_component envEmpty initWidgetState none).1.trace =
        initWidgetState.trace ++ [Event.setName none, Event.modelRefresh]) ∧
    ((ComponentWidget.set_component envEmpty initWidgetState (some "")).2 =
        some (PyExn.attributeError attrErrorNoneName) ∧
      (ComponentWidget.set_component envEmpty initWidgetState (some "")).1.component_name =
        some "")) :=
  ⟨rfl, C2_none_clears_but_empty_string_raises envEmpty initWidgetState rfl⟩

/-- C5: if the resolved component is absent when the help-pane renderer runs, the
help pane performs no update at all: the state (in particular the pane document
content) is exactly what it was before the call, and nothing is raised. -/
theorem C5_set_help_absent_noop (env : Env) (s : WidgetState)
    (h : ComponentWidget.component env s = none) :
    ComponentWidget._set_help env s = s := by
  simp [ComponentWidget._set_help, h]

/-- C5 witness: the statement at the empty registry and initial state. -/
theorem C5_witness :
    ComponentWidget.component envEmpty initWidgetState = none ∧
    ComponentWidget._set_help envEmpty initWidgetState = initWidgetState :=
  ⟨rfl, C5_set_help_absent_noop envEmpty initWidgetState rfl⟩

/-- C6 counterexample: with no resolvable component, `_set_source` raises a
`TypeError` that is not caught — the state is returned untouched (so no warning
dialog event was recorded) and the exception propagates, contradicting the claim that
the failure is caught and surfaced as a visible warning. -/
theorem C6_counterexample :
    ComponentWidget._set_source envEmpty initWidgetState =
      (initWidgetState, some (PyExn.typeError typeErrorGetfileNone)) := by
  simp [ComponentWidget._set_source, ComponentWidget.component, getfileOfClass,
    envEmpty, initWidgetState, resolveName, dictGet]

/-- C6 (amended): if an absent component reaches the source-pane renderer, resolving
its file path raises a `TypeError` that is not caught: the state is untouched (no
warning is surfaced) and the exception propagates to the caller. -/
theorem C6_set_source_absent_raises (env : Env) (s : WidgetState)
    (h : ComponentWidget.component env s = none) :
    ComponentWidget._set_source env s =
      (s, some (PyExn.typeError typeErrorGetfileNone)) := by
  simp [ComponentWidget._set_source, getfileOfClass, h]

/-- C6 witness: the amended statement at the empty registry and initial state. -/
theorem C6_witness :
    ComponentWidget.component envEmpty initWidgetState = none ∧
    ComponentWidget._set_source envEmpty initWidgetState =
      (initWidgetState, some (PyExn.typeError typeErrorGetfileNone)) :=
  ⟨rfl, C6_set_source_absent_raises envEmpty initWidgetState rfl⟩

/-- C3 counterexample: for the non-empty name nope, absent from the (empty) registry,
`set_component` raises, leaves the window title untouched and performs no table
refresh — contradicting the claim that every non-empty name yields the title update
and the three refreshes. -/
theorem C3_counterexample :
    (ComponentWidget.set_component envEmpty initWidgetState (some "nope")).2 =
      some (PyExn.attributeError attrErrorNoneName) ∧
    (ComponentWidget.set_component envEmpty initWidgetState (some "nope")).1.windowTitle
      = "" ∧
    ((ComponentWidget.set_component envEmpty initWidgetState
      (some "nope")).1.trace.countP Event.isRefresh) = 0 := by
  exact ⟨rfl, rfl, rfl⟩

/-- C3 (amended): for every non-empty name that resolves in the registry,
`set_component(name)` stores the identifier, sets the window title (and the parent
window title) to the label component-name : class : module (separated by three
spaces on each side of the colons), and performs source-pane refresh, help-pane
refresh and parameter-table refresh in exactly that order, followed by auto-sizing
the parameter table columns; for a non-empty name that does not resolve, the call
raises instead (see the counterexample). -/
theorem C3_set_component_title_and_order (env : Env) (s : WidgetState) (n : String)
    (c : Component) (hres : resolveName env (some n) = some c) :
    (ComponentWidget.set_component env s (some n)).2 = none ∧
    (ComponentWidget.set_component env s (some n)).1.component_name = some n ∧
    (ComponentWidget.set_component env s (some n)).1.windowTitle = labelText c ∧
    (ComponentWidget.set_component env s (some n)).1.parentWindowTitle = labelText c ∧
    (ComponentWidget.set_component env s (some n)).1.trace =
      s.trace ++ [Event.setName (some n),
        Event.setWindowTitle (labelText c),
        Event.setParentWindowTitle (labelText c),
        Event.setSourcePath c.cls.file,
        (if env.highlightAvailable then
          Event.setSrcHtml (env.pygmentsHighlight (env.readFile c.cls.file))
        else Event.setSrcPlain (env.readFile c.cls.file)),
        Event.setHelpHtml (helpBodyText c c.cls.file (format_docstr (getdoc c))
          (format_docstr (getdocInit c))),
        Event.modelRefresh,
        Event.autoresizeColumns] := by
  cases hhl : env.highlightAvailable
  · rw [set_component_hit_plain_eq env s n c hres hhl]
    simp [hhl]
  · rw [set_component_hit_html_eq env s n c hres hhl]
    simp [hhl]

/-- C3 witness: the amended statement at the sample registry. -/
theorem C3_witness :
    resolveName envSample (some "Q1") = some sampleComponent ∧
    ((ComponentWidget.set_component envSample initWidgetState (some "Q1")).2 = none ∧
    (ComponentWidget.set_component envSample initWidgetState (some "Q1")).1.component_name
      = some "Q1" ∧
    (ComponentWidget.set_component envSample initWidgetState (some "Q1")).1.windowTitle
      = labelText sampleComponent ∧
    (ComponentWidget.set_component envSample initWidgetState
      (some "Q1")).1.parentWindowTitle = labelText sampleComponent ∧
    (ComponentWidget.set_component envSample initWidgetState (some "Q1")).1.trace =
      initWidgetState.trace ++ [Event.setName (some "Q1"),
        Event.setWindowTitle (labelText sampleComponent),
        Event.setParentWindowTitle (labelText sampleComponent),
        Event.setSourcePath sampleComponent.cls.file,
        (if envSample.highlightAvailable then
          Event.setSrcHtml (envSample.pygmentsHighlight
            (envSample.readFile sampleComponent.cls.file))
        else Event.setSrcPlain (envSample.readFile sampleComponent.cls.file)),
        Event.setHelpHtml (helpBodyText sampleComponent sampleComponent.cls.file
          (format_docstr (getdoc sampleComponent))
          (format_docstr (getdocInit sampleComponent))),
        Event.modelRefresh,
        Event.autoresizeColumns]) :=
  ⟨rfl, C3_set_component_title_and_order envSample initWidgetState "Q1" sampleComponent rfl⟩

/-- C4 counterexample: for a selection change to a name absent from the registry,
the model refresh is invoked zero times (the call raises first), contradicting the
claim that every call to `set_component` invokes `refresh()` exactly once. -/
theorem C4_counterexample :
    ((ComponentWidget.set_component envEmpty initWidgetState
      (some "ghost")).1.trace.countP Event.isRefresh) = 0 := by
  exact rfl

/-- C4 (amended): on every call to `set_component`, the name field is updated first
(the name assignment is the first recorded effect); after it, the parameter-table
model refresh runs exactly once when the name is `None` or resolves in the registry,
and zero times when the name fails to resolve (the call raises before reaching the
refresh). -/
theorem C4_refresh_exactly_once_after_update (env : Env) (s : WidgetState)
    (name : Option String) :
    ∃ rest, (ComponentWidget.set_component env s name).1.trace =
        s.trace ++ Event.setName name :: rest ∧
      rest.countP Event.isRefresh =
        (match name, resolveName env name with
          | none, _ => 1
          | some _, some _ => 1
          | some _, none => 0) := by
  cases name with
  | none =>
    rw [set_component_none_eq env s]
    exact ⟨[Event.modelRefresh], by simp, rfl⟩
  | some n =>
    cases hres : resolveName env (some n) with
    | none =>
      rw [set_component_miss_eq env s n hres]
      exact ⟨[], by simp, by simp [hres]⟩
    | some c =>
      cases hhl : env.highlightAvailable
      · rw [set_component_hit_plain_eq env s n c hres hhl]
        refine ⟨[Event.setWindowTitle (labelText c),
          Event.setParentWindowTitle (labelText c), Event.setSourcePath c.cls.file,
          Event.setSrcPlain (env.readFile c.cls.file),
          Event.setHelpHtml (helpBodyText c c.cls.file (format_docstr (getdoc c))
            (format_docstr (getdocInit c))),
          Event.modelRefresh, Event.autoresizeColumns], by simp, ?_⟩
        simp [hres, List.countP_cons, Event.isRefresh]
      · rw [set_component_hit_html_eq env s n c hres hhl]
        refine ⟨[Event.setWindowTitle (labelText c),
          Event.setParentWindowTitle (labelText c), Event.setSourcePath c.cls.file,
          Event.setSrcHtml (env.pygmentsHighlight (env.readFile c.cls.file)),
          Event.setHelpHtml (helpBodyText c c.cls.file (format_docstr (getdoc c))
            (format_docstr (getdocInit c))),
          Event.modelRefresh, Event.autoresizeColumns], by simp, ?_⟩
        simp [hres, List.countP_cons, Event.isRefresh]

/-- C7: with the highlighting capability unavailable, for every resolvable selected
component `set_component` succeeds and the source pane content is exactly the raw
text of the component's source file, set as plain text; the missing-dependency
fallback is logged exactly once at import (startup) time, and the render itself emits
no log events. -/
theorem C7_plain_text_fallback (env : Env) (s : WidgetState) (n : String)
    (c : Component) (hhl : env.highlightAvailable = false)
    (hres : resolveName env (some n) = some c) :
    (ComponentWidget.set_component env s (some n)).2 = none ∧
    (ComponentWidget.set_component env s (some n)).1.srcContent =
      SrcContent.plain (env.readFile c.cls.file) ∧
    pygmentsImportEvents env.highlightAvailable =
      [Event.logError "Error: Could not load python package pygments"] ∧
    (ComponentWidget.set_component env s (some n)).1.trace.countP Event.isLog =
      s.trace.countP Event.isLog := by
  rw [set_component_hit_plain_eq env s n c hres hhl]
  refine ⟨rfl, rfl, by simp [pygmentsImportEvents, hhl], ?_⟩
  simp [List.countP_append, List.countP_cons, Event.isLog]

/-- C7 witness: the statement at the sample registry with pygments unavailable. -/
theorem C7_witness :
    envSample.highlightAvailable = false ∧
    resolveName envSample (some "Q1") = some sampleComponent ∧
    ((ComponentWidget.set_component envSample initWidgetState (some "Q1")).2 = none ∧
    (ComponentWidget.set_component envSample initWidgetState (some "Q1")).1.srcContent =
      SrcContent.plain (envSample.readFile sampleComponent.cls.file) ∧
    pygmentsImportEvents envSample.highlightAvailable =
      [Event.logError "Error: Could not load python package pygments"] ∧
    (ComponentWidget.set_component envSample initWidgetState
        (some "Q1")).1.trace.countP Event.isLog =
      initWidgetState.trace.countP Event.isLog) :=
  ⟨rfl, rfl, C7_plain_text_fallback envSample initWidgetState "Q1" sampleComponent rfl rfl⟩

/-- C8: `edit_source()` with no resolvable selection records exactly one warning
dialog and constructs no editor widget (the widget list is unchanged); with a valid
selection it constructs exactly one new editor widget, retains it at the end of the
widget list, logs one info message, and shows no warning. -/
theorem C8_edit_source_exclusive (env : Env) (s : WidgetState) :
    match ComponentWidget.component env s with
    | none =>
        (ComponentWidget.edit_source env s).src_widgets = s.src_widgets ∧
        (ComponentWidget.edit_source env s).trace =
          s.trace ++ [Event.warnDialog "Missing Selected Component" editSourceWarnMsg]
    | some c =>
        (ComponentWidget.edit_source env s).src_widgets =
          s.src_widgets ++
            [create_source_edit_widget c.cls.name c.cls.module c.cls.file] ∧
        (ComponentWidget.edit_source env s).trace =
          s.trace ++ [Event.createEditWidget c.cls.name c.cls.module c.cls.file,
                      Event.logInfo editSourceInfoMsg] := by
  cases h : ComponentWidget.component env s with
  | none => simp [ComponentWidget.edit_source, h]
  | some c => simp [ComponentWidget.edit_source, h]

/-- C9: for every name present in the registry, after `set_component(name)` the help
pane content contains the component's name, class name and module name as literal
substrings; the pane content is the assembled body whose docstring blocks are
`format_docstr` of the class and init docstrings, where `format_docstr` yields the
empty string on a missing docstring and a preformatted pre/code block on a present
one. -/
theorem C9_help_contains_metadata (env : Env) (s : WidgetState) (n : String)
    (c : Component) (hres : resolveName env (some n) = some c) :
    containsSubstr (ComponentWidget.set_component env s (some n)).1.helpHtml c.name ∧
    containsSubstr (ComponentWidget.set_component env s (some n)).1.helpHtml
      c.cls.name ∧
    containsSubstr (ComponentWidget.set_component env s (some n)).1.helpHtml
      c.cls.module ∧
    (ComponentWidget.set_component env s (some n)).1.helpHtml =
      helpBodyText c c.cls.file (format_docstr (getdoc c))
        (format_docstr (getdocInit c)) ∧
    format_docstr none = "" ∧
    (∀ d : String, format_docstr (some d) =
      "\n<pre style=\"background-color: #EBECE4;\">\n<code class=\"DocString\">"
        ++ pyStrip d ++ "</code>\n</pre>\n    ") := by
  have hhtml : (ComponentWidget.set_component env s (some n)).1.helpHtml =
      helpBodyText c c.cls.file (format_docstr (getdoc c))
        (format_docstr (getdocInit c)) := by
    cases hhl : env.highlightAvailable
    · rw [set_component_hit_plain_eq env s n c hres hhl]
    · rw [set_component_hit_html_eq env s n c hres hhl]
  rw [hhtml]
  exact ⟨helpBody_contains_of_summary _ _ _ _ _ (helpSummary_contains_name c _),
    helpBody_contains_of_summary _ _ _ _ _ (helpSummary_contains_clsname c _),
    helpBody_contains_of_summary _ _ _ _ _ (helpSummary_contains_module c _),
    rfl, rfl, fun _ => rfl⟩

/-- C9 witness: the statement at the sample registry. -/
theorem C9_witness :
    resolveName envSample (some "Q1") = some sampleComponent ∧
    (containsSubstr (ComponentWidget.set_component envSample initWidgetState
        (some "Q1")).1.helpHtml sampleComponent.name ∧
    containsSubstr (ComponentWidget.set_component envSample initWidgetState
        (some "Q1")).1.helpHtml sampleComponent.cls.name ∧
    containsSubstr (ComponentWidget.set_component envSample initWidgetState
        (some "Q1")).1.helpHtml sampleComponent.cls.module ∧
    (ComponentWidget.set_component envSample initWidgetState (some "Q1")).1.helpHtml =
      helpBodyText sampleComponent sampleComponent.cls.file
        (format_docstr (getdoc sampleComponent))
        (format_docstr (getdocInit sampleComponent)) ∧
    format_docstr none = "" ∧
    (∀ d : String, format_docstr (some d) =
      "\n<pre style=\"background-color: #EBECE4;\">\n<code class=\"DocString\">"
        ++ pyStrip d ++ "</code>\n</pre>\n    ")) :=
  ⟨rfl, C9_help_contains_metadata envSample initWidgetState "Q1" sampleComponent rfl⟩

/-- C10: `set_component` assigns the stored component-name field before resolution
and any view refresh: after any call with a name, the stored selection equals the new
name and the first recorded effect is the name assignment — in particular, when the
name is not in the registry the call raises with the selection already changed. -/
theorem C10_name_stored_before_failure (env : Env) (s : WidgetState) (n : String) :
    (ComponentWidget.set_component env s (some n)).1.component_name = some n ∧
    (∃ rest, (ComponentWidget.set_component env s (some n)).1.trace =
      s.trace ++ Event.setName (some n) :: rest) ∧
    (resolveName env (some n) = none →
      (ComponentWidget.set_component env s (some n)).2 =
        some (PyExn.attributeError attrErrorNoneName)) := by
  cases hres : resolveName env (some n) with
  | none =>
    rw [set_component_miss_eq env s n hres]
    exact ⟨rfl, ⟨_, rfl⟩, fun _ => rfl⟩
  | some c =>
    cases hhl : env.highlightAvailable
    · rw [set_component_hit_plain_eq env s n c hres hhl]
      exact ⟨rfl, ⟨_, rfl⟩, fun h => by simp [hres] at h⟩
    · rw [set_component_hit_html_eq env s n c hres hhl]
      exact ⟨rfl, ⟨_, rfl⟩, fun h => by simp [hres] at h⟩

/-- C10 witness: the statement at a concrete missing name, with the raising-case
hypothesis discharged. -/
theorem C10_witness :
    resolveName envEmpty (some "missing-x") = none ∧
    (ComponentWidget.set_component envEmpty initWidgetState
      (some "missing-x")).1.component_name = some "missing-x" ∧
    (∃ rest, (ComponentWidget.set_component envEmpty initWidgetState
        (some "missing-x")).1.trace =
      initWidgetState.trace ++ Event.setName (some "missing-x") :: rest) ∧
    (ComponentWidget.set_component envEmpty initWidgetState (some "missing-x")).2 =
      some (PyExn.attributeError attrErrorNoneName) :=
  ⟨rfl,
    (C10_name_stored_before_failure envEmpty initWidgetState "missing-x").1,
    (C10_name_stored_before_failure envEmpty initWidgetState "missing-x").2.1,
    (C10_name_stored_before_failure envEmpty initWidgetState "missing-x").2.2 rfl⟩
